import Mathlib

/-!
Shallow embedding of the apollo-server request pipeline
(`GraphQLRequestProcessor` and its helpers) together with the REST
data-source initialization contract and the per-request context model.

Conventions of the embedding:
* JavaScript exceptions thrown by `processRequest` are `Except.error`
  values of `ProcessError`; a returned response is `Except.ok`.
* The engine (parser / validator / executor), the sha256 function and the
  persisted-query cache are external collaborators, modelled as fields of
  `RequestOptions`.
* The instrumentation stack (a `graphql-extensions` collaborator outside
  this repository) is modelled as a pure recorder of hook events: each
  hook invocation appends an `Event` to the trace, and `willSendResponse`
  passes the response through unchanged (the behaviour of a stack whose
  extensions do not transform responses).  Cache reads, the detached
  cache write and its logged failure are recorded in the same trace.
* `undefined` / absent JavaScript values are `Option.none`; the JS
  falsiness of `undefined` and of the empty string is modelled explicitly
  where the source relies on it (`(await get(...)) || undefined`,
  `if (!query)`).
-/

namespace ApolloServer

/-- Opaque handle to a parsed document: the processor never inspects the
syntax tree, it only passes it between engine calls. -/
abbrev Document := Nat

/-- Opaque handle to an operation node returned by `getOperationAST`. -/
abbrev OperationNode := Nat

/-- `extensions.persistedQuery` of a request. -/
structure PersistedQueryExtension where
  version : Int
  sha256Hash : String
deriving DecidableEq, Repr

/-- The fields of a `GraphQLRequest` that the processor reads.  `variables`
is an opaque payload forwarded to the executor. -/
structure GraphQLRequest where
  query : Option String
  operationName : Option String
  variableValues : Option Nat
  persistedQuery : Option PersistedQueryExtension
deriving DecidableEq, Repr

/-- Error classification produced by `fromGraphQLError`'s `errorClass`
option: `SyntaxError`, `ValidationError`, or no class (plain re-wrap). -/
inductive ErrorClass where
  | syntaxError
  | validationError
  | unclassified
deriving DecidableEq, Repr

/-- A classified error in a response: `fromGraphQLError` keeps the original
message and attaches the class. -/
structure ClassifiedError where
  message : String
  errorClass : ErrorClass
deriving DecidableEq, Repr

/-- `fromGraphQLError(error, { errorClass })`: keeps the message, attaches
the classification. -/
def fromGraphQLError (message : String) (errorClass : ErrorClass) : ClassifiedError :=
  { message := message, errorClass := errorClass }

/-- `GraphQLResponse`: `data` and `extensions` payloads are opaque. -/
structure GraphQLResponse where
  data : Option Nat
  errors : Option (List ClassifiedError)
  extensions : Option (List (String × Nat))
deriving DecidableEq, Repr

/-- The exceptions `processRequest` throws before reaching the engine:
`PersistedQueryNotSupportedError`, `PersistedQueryNotFoundError`, and
`InvalidGraphQLRequestError` with its message. -/
inductive ProcessError where
  | persistedQueryNotSupported
  | persistedQueryNotFound
  | invalidGraphQLRequest (message : String)
deriving DecidableEq, Repr

/-- The persisted-query key-value cache: `get` returns `none` for a miss
(`undefined`); `setFails` says whether the detached `set` of this request
rejects (the write itself is fire-and-forget). -/
structure KVCache where
  get : String → Option String
  setFails : Bool

/-- `PersistedQueryOptions`: its `cache` field may itself be absent. -/
structure PersistedQueryOptions where
  cache : Option KVCache

/-- The configuration and collaborators `processRequest` consults:
engine functions, sha256, persisted-query options, the formatted
extensions returned by `extensionStack.format()`, and the optional
`formatResponse` hook.  `willExecuteOperationDefined` models whether the
optional `willExecuteOperation` method is present on the processor. -/
structure RequestOptions where
  persistedQueries : Option PersistedQueryOptions
  sha256 : String → String
  parser : String → Except String Document
  validator : Document → List String
  executor : Document → Option String → Option Nat → Except String GraphQLResponse
  getOperation : Document → Option String → Option OperationNode
  willExecuteOperationDefined : Bool
  stackFormat : List (String × Nat)
  formatResponse : Option (GraphQLResponse → GraphQLResponse)

/-- Observable events of one `processRequest` call, in order: instrumentation
hooks, engine invocations, cache reads, the scheduling of the detached
cache write and the `console.warn` of its failure. -/
inductive Event where
  | cacheGet (key : String) (result : Option String)
  | cacheSetScheduled (key : String) (value : String)
  | cacheSetFailedLogged
  | requestDidStart (persistedQueryHit persistedQueryRegister : Bool)
  | parsingDidStart (queryString : String)
  | parserRan (queryString : String)
  | parsingDidEnd
  | validationDidStart
  | validatorRan
  | validationDidEnd
  | willExecuteOperation
  | executionDidStart
  | executorRan
  | executionDidEnd
  | willSendResponse
  | requestDidEnd
deriving DecidableEq, Repr

/-- Events that the query-resolution phase (before `requestDidStart`) can
emit: cache reads, scheduled writes and their logged failures. -/
def Event.isPreEvent : Event → Bool
  | Event.cacheGet _ _ => true
  | Event.cacheSetScheduled _ _ => true
  | Event.cacheSetFailedLogged => true
  | _ => false

/-- Decidable equality of `Except` results, so that concrete runs can be
checked by evaluation. -/
instance {ε α : Type} [DecidableEq ε] [DecidableEq α] : DecidableEq (Except ε α) := fun a b =>
  match a, b with
  | Except.error e, Except.error f =>
      if h : e = f then Decidable.isTrue (by rw [h]) else Decidable.isFalse (by simp [h])
  | Except.ok x, Except.ok y =>
      if h : x = y then Decidable.isTrue (by rw [h]) else Decidable.isFalse (by simp [h])
  | Except.error _, Except.ok _ => Decidable.isFalse (by simp)
  | Except.ok _, Except.error _ => Decidable.isFalse (by simp)

/-- Result of one `processRequest` call: the returned response or thrown
exception, and the ordered event trace. -/
structure ProcessOutcome where
  result : Except ProcessError GraphQLResponse
  trace : List Event
deriving DecidableEq, Repr

/-- The three events of the parse stage: `parsingDidStart` hook, the engine
parser call, the `parsingDidEnd` finalizer (run in `finally`, so it fires
also when the parser throws). -/
def parseBlock (queryString : String) : List Event :=
  [Event.parsingDidStart queryString, Event.parserRan queryString, Event.parsingDidEnd]

/-- The three events of the validation stage (hook, engine call, finalizer). -/
def validationBlock : List Event :=
  [Event.validationDidStart, Event.validatorRan, Event.validationDidEnd]

/-- The three events of the execution stage (hook, engine call, finalizer). -/
def executionBlock : List Event :=
  [Event.executionDidStart, Event.executorRan, Event.executionDidEnd]

/-- The body of `processRequest` from `requestDidStart` on (source lines
224-296): parse, validate, resolve operation, execute, format, always
closing with `willSendResponse` and the `finally`-run `requestDidEnd`.
`pre` is the trace accumulated by the query-resolution phase. -/
def runMain (options : RequestOptions) (request : GraphQLRequest) (query : String)
    (persistedQueryHit persistedQueryRegister : Bool) (pre : List Event) : ProcessOutcome :=
  let start := pre ++ [Event.requestDidStart persistedQueryHit persistedQueryRegister]
  match options.parser query with
  | Except.error msg =>
      { result := Except.ok
          { data := none,
            errors := some [fromGraphQLError msg ErrorClass.syntaxError],
            extensions := none },
        trace := start ++ parseBlock query ++ [Event.willSendResponse, Event.requestDidEnd] }
  | Except.ok document =>
      let validationErrors := options.validator document
      if validationErrors.isEmpty then
        let opEvents : List Event :=
          match options.getOperation document request.operationName with
          | some _ => if options.willExecuteOperationDefined then [Event.willExecuteOperation] else []
          | none => []
        match options.executor document request.operationName request.variableValues with
        | Except.error msg =>
            { result := Except.ok
                { data := none,
                  errors := some [fromGraphQLError msg ErrorClass.unclassified],
                  extensions := none },
              trace := start ++ parseBlock query ++ validationBlock ++ opEvents ++
                executionBlock ++ [Event.willSendResponse, Event.requestDidEnd] }
        | Except.ok response0 =>
            let response1 :=
              if options.stackFormat.isEmpty then response0
              else { response0 with extensions := some options.stackFormat }
            let response2 :=
              match options.formatResponse with
              | some f => f response1
              | none => response1
            { result := Except.ok response2,
              trace := start ++ parseBlock query ++ validationBlock ++ opEvents ++
                executionBlock ++ [Event.willSendResponse, Event.requestDidEnd] }
      else
        { result := Except.ok
            { data := none,
              errors := some (validationErrors.map (fun e => fromGraphQLError e ErrorClass.validationError)),
              extensions := none },
          trace := start ++ parseBlock query ++ validationBlock ++
            [Event.willSendResponse, Event.requestDidEnd] }

/-- `GraphQLRequestProcessor.processRequest` (source lines 162-296).  The
query-resolution phase mirrors the source: persisted-query support check,
version check, cache lookup with JS falsiness (`|| undefined`), sha
comparison, detached cache write, and the `if (!query)` guard; then the
main pipeline runs. -/
def processRequest (options : RequestOptions) (request : GraphQLRequest) : ProcessOutcome :=
  match request.persistedQuery with
  | some pq =>
      match options.persistedQueries with
      | none => { result := Except.error ProcessError.persistedQueryNotSupported, trace := [] }
      | some pqOptions =>
          match pqOptions.cache with
          | none => { result := Except.error ProcessError.persistedQueryNotSupported, trace := [] }
          | some cache =>
              if pq.version ≠ 1 then
                { result := Except.error (ProcessError.invalidGraphQLRequest "Unsupported persisted query version"),
                  trace := [] }
              else
                match request.query with
                | none =>
                    let key := "apq:" ++ pq.sha256Hash
                    let raw := cache.get key
                    let resolved := raw.bind (fun s => if s = "" then none else some s)
                    match resolved with
                    | some q => runMain options request q true false [Event.cacheGet key raw]
                    | none =>
                        { result := Except.error ProcessError.persistedQueryNotFound,
                          trace := [Event.cacheGet key raw] }
                | some q =>
                    if pq.sha256Hash ≠ options.sha256 q then
                      { result := Except.error (ProcessError.invalidGraphQLRequest "provided sha does not match query"),
                        trace := [] }
                    else
                      let writeEvents :=
                        Event.cacheSetScheduled ("apq:" ++ pq.sha256Hash) q ::
                          (if cache.setFails then [Event.cacheSetFailedLogged] else [])
                      if q = "" then
                        { result := Except.error (ProcessError.invalidGraphQLRequest "Must provide query string."),
                          trace := writeEvents }
                      else runMain options request q false true writeEvents
  | none =>
      match request.query with
      | none =>
          { result := Except.error (ProcessError.invalidGraphQLRequest "Must provide query string."),
            trace := [] }
      | some q =>
          if q = "" then
            { result := Except.error (ProcessError.invalidGraphQLRequest "Must provide query string."),
              trace := [] }
          else runMain options request q false false []

/-- The query-resolution phase of `processRequest` (source lines 163-222)
restated as a standalone function: the final query text handed to the
pipeline, or the exception thrown before `requestDidStart`.  Used in
theorem hypotheses to quantify over all requests whose text resolves. -/
def resolveQueryText (options : RequestOptions) (request : GraphQLRequest) :
    Except ProcessError String :=
  match request.persistedQuery with
  | some pq =>
      match options.persistedQueries with
      | none => Except.error ProcessError.persistedQueryNotSupported
      | some pqOptions =>
          match pqOptions.cache with
          | none => Except.error ProcessError.persistedQueryNotSupported
          | some cache =>
              if pq.version ≠ 1 then
                Except.error (ProcessError.invalidGraphQLRequest "Unsupported persisted query version")
              else
                match request.query with
                | none =>
                    match (cache.get ("apq:" ++ pq.sha256Hash)).bind
                        (fun s => if s = "" then none else some s) with
                    | some q => Except.ok q
                    | none => Except.error ProcessError.persistedQueryNotFound
                | some q =>
                    if pq.sha256Hash ≠ options.sha256 q then
                      Except.error (ProcessError.invalidGraphQLRequest "provided sha does not match query")
                    else if q = "" then
                      Except.error (ProcessError.invalidGraphQLRequest "Must provide query string.")
                    else Except.ok q
  | none =>
      match request.query with
      | none => Except.error (ProcessError.invalidGraphQLRequest "Must provide query string.")
      | some q =>
          if q = "" then Except.error (ProcessError.invalidGraphQLRequest "Must provide query string.")
          else Except.ok q

/-- The persisted-query cache configured in the options, if any:
`options.persistedQueries && options.persistedQueries.cache`. -/
def configuredPQCache (options : RequestOptions) : Option KVCache :=
  match options.persistedQueries with
  | none => none
  | some pqOptions => pqOptions.cache

/-- Replace `setFails` on the configured persisted-query cache (same
options, but the detached write now succeeds / rejects as `b` says):
lets a theorem compare runs that differ only in the write's outcome. -/
def RequestOptions.withSetFails (options : RequestOptions) (b : Bool) : RequestOptions :=
  { options with
      persistedQueries := options.persistedQueries.map (fun pqOptions =>
        { pqOptions with cache := pqOptions.cache.map (fun c => { c with setFails := b }) }) }

/-! ## The per-request context heap model

`initializeContext` shallow-clones the caller's context object and wires
data sources into it.  JavaScript objects live on a heap: an address is an
index, an object is its list of own enumerable properties, and a property
value is a primitive or a reference to another object.  `cloneObject`
(source lines 361-363, `Object.assign(Object.create(...), object)`) copies
the own properties into a fresh object; references are copied as
references (shallow). -/

/-- A JavaScript property value: a primitive or a reference to a heap
object. -/
inductive JSValue where
  | prim (n : Nat)
  | str (s : String)
  | ref (addr : Nat)
deriving DecidableEq, Repr

/-- An object's own enumerable properties, in insertion order. -/
abbrev JSObject := List (String × JSValue)

/-- The object heap: address = index. -/
abbrev Heap := List JSObject

/-- The object at an address (empty for a dangling address). -/
def getObj (h : Heap) (a : Nat) : JSObject := (h.get? a).getD []

/-- Read an own property. -/
def getProp (h : Heap) (a : Nat) (k : String) : Option JSValue :=
  ((getObj h a).find? (fun p => p.1 = k)).map Prod.snd

/-- The `'k' in obj` test on own properties. -/
def containsKey (h : Heap) (a : Nat) (k : String) : Bool :=
  (getObj h a).any (fun p => p.1 = k)

/-- Overwrite or append one property of one object (in place). -/
def setPropObj (o : JSObject) (k : String) (v : JSValue) : JSObject :=
  if o.any (fun p => p.1 = k) then
    o.map (fun p => if p.1 = k then (k, v) else p)
  else o ++ [(k, v)]

/-- Assign `obj.k = v` for the object at address `a`. -/
def setProp (h : Heap) (a : Nat) (k : String) (v : JSValue) : Heap :=
  h.set a (setPropObj (getObj h a) k v)

/-- Allocate a fresh object, returning the new heap and its address. -/
def alloc (h : Heap) (o : JSObject) : Heap × Nat := (h ++ [o], h.length)

/-- `cloneObject` (source lines 361-363): a fresh object carrying a copy of
the argument's own properties — reference values still point at the same
heap objects (shallow clone). -/
def cloneObject (h : Heap) (a : Nat) : Heap × Nat := alloc h (getObj h a)

/-- One declared data source of the factory's output: its name in the
mapping and whether it defines `initialize`. -/
structure DataSourceSpec where
  name : String
  hasInitialize : Bool
deriving DecidableEq, Repr

/-- One recorded `dataSource.initialize({ context, cache })` invocation:
which data source, and the two properties of the single config-object
argument — `context` carries the value of `this.context` at call time
(`none` = `undefined`), `cache` carries `this.options.cache`. -/
structure InitializeCall where
  dataSourceName : String
  argContext : Option Nat
  argCache : Nat
deriving DecidableEq, Repr

/-- The construction-time configuration `initializeContext` reads: the
caller's context object, the data-source factory (modelled by its fixed
output list; `none` = no factory configured) and the configured cache. -/
structure ConstructOptions where
  contextAddr : Nat
  dataSources : Option (List DataSourceSpec)
  cacheId : Nat
deriving DecidableEq, Repr

/-- What construction produced: the heap after it, `this.context`, how many
times the factory ran and every `initialize` invocation in order. -/
structure ConstructResult where
  heap : Heap
  contextAddr : Nat
  factoryCalls : Nat
  initializeCalls : List InitializeCall
deriving DecidableEq, Repr

/-- `initializeContext` (source lines 95-125): shallow-clone the caller's
context; if a factory is configured, run it once, call `initialize` on
every data source that defines it (passing the single object
`{ context: this.context, cache: this.options.cache }`, where
`thisContext` is the value the field `this.context` holds at that
moment), throw on a reserved-key collision, else attach the mapping under
`dataSources`. -/
def initializeContext (h : Heap) (opts : ConstructOptions) (thisContext : Option Nat) :
    Except String ConstructResult :=
  let cloned := cloneObject h opts.contextAddr
  let h1 := cloned.1
  let ctx := cloned.2
  match opts.dataSources with
  | none => Except.ok { heap := h1, contextAddr := ctx, factoryCalls := 0, initializeCalls := [] }
  | some dss =>
      let calls := dss.filterMap (fun ds =>
        if ds.hasInitialize then
          some { dataSourceName := ds.name, argContext := thisContext, argCache := opts.cacheId }
        else none)
      if containsKey h1 ctx "dataSources" then
        Except.error "Please use the dataSources config option instead of putting dataSources on the context yourself."
      else
        let allocated := alloc h1 (dss.map (fun ds => (ds.name, JSValue.prim 0)))
        Except.ok
          { heap := setProp allocated.1 ctx "dataSources" (JSValue.ref allocated.2),
            contextAddr := ctx,
            factoryCalls := 1,
            initializeCalls := calls }

/-- The `GraphQLRequestProcessor` constructor (source lines 90-93) runs
`this.context = this.initializeContext()`: while `initializeContext`
executes, the field `this.context` is still `undefined` — the assignment
happens only after it returns. -/
def construct (h : Heap) (opts : ConstructOptions) : Except String ConstructResult :=
  initializeContext h opts none

/-- The two properties of the single config-object argument the processor
passes to `initialize`. -/
structure InitializeConfigObject where
  context : Option Nat
  cache : Option Nat
deriving DecidableEq, Repr

/-- The fields `RESTDataSource.initialize` assigns. -/
structure RESTDataSourceState where
  context : InitializeConfigObject
  httpCacheBacking : Option Nat
deriving DecidableEq, Repr

/-- `RESTDataSource.initialize(context, cache)`
(src/packages/apollo-datasource-rest/src/RESTDataSource.ts lines 39-42):
sets `this.context := context` and `this.httpCache := new HTTPCache(cache)`
— modelled by recording the cache the `HTTPCache` is built over. -/
def RESTDataSource.initialize (context : InitializeConfigObject) (cache : Option Nat) :
    RESTDataSourceState :=
  { context := context, httpCacheBacking := cache }

/-- JavaScript call adaptation: the processor invokes `initialize` with the
single argument `{ context, cache }`; a two-parameter
`initialize(context, cache)` such as `RESTDataSource`'s receives that
object as `context` and `undefined` as `cache`. -/
def initializeCallAsReceived (c : InitializeCall) : RESTDataSourceState :=
  RESTDataSource.initialize { context := c.argContext, cache := some c.argCache } none

/-- A concrete persisted-query cache for witness runs: one stored query
under `apq:hit`, the empty string under `apq:empty`, misses elsewhere. -/
def demoCache : KVCache :=
  { get := fun k =>
      if k = "apq:hit" then some "stored"
      else if k = "apq:empty" then some ""
      else none,
    setFails := false }

/-- Concrete collaborators for witness runs: sha256 prefixes `h-`, the
parser rejects exactly the text `bad`, the validator rejects exactly the
document parsed from `invalid`, the executor fails on the document parsed
from `boom` and otherwise returns data. -/
def demoOptions : RequestOptions :=
  { persistedQueries := some { cache := some demoCache },
    sha256 := fun s => "h-" ++ s,
    parser := fun s =>
      if s = "bad" then Except.error "Syntax Error: bad"
      else if s = "invalid" then Except.ok 1
      else if s = "boom" then Except.ok 2
      else Except.ok 0,
    validator := fun doc => if doc = 1 then ["unknown field a", "unknown field b"] else [],
    executor := fun doc _ _ =>
      if doc = 2 then Except.error "resolver blew up"
      else Except.ok { data := some 1, errors := none, extensions := none },
    getOperation := fun _ _ => some 0,
    willExecuteOperationDefined := false,
    stackFormat := [],
    formatResponse := none }

/-- A request from the four fields. -/
def demoRequest (q : Option String) (pq : Option PersistedQueryExtension) : GraphQLRequest :=
  { query := q, operationName := none, variableValues := none, persistedQuery := pq }

/-- A demo configuration with one data source that defines `initialize`. -/
def c7Heap : Heap := [[("userId", JSValue.prim 7)]]

/-- Construction options for the data-source demo: caller context at
address 0, a factory producing `moviesAPI`, cache id 5. -/
def c7Options : ConstructOptions :=
  { contextAddr := 0,
    dataSources := some [{ name := "moviesAPI", hasInitialize := true }],
    cacheId := 5 }

/-- The JavaScript read `ctxAddr.k1.k2`: follow the reference stored under
`k1`, then read `k2` on the referenced object. -/
def readThrough (h : Heap) (a : Nat) (k1 k2 : String) : Option JSValue :=
  match getProp h a k1 with
  | some (JSValue.ref b) => getProp h b k2
  | _ => none

/-- A caller-supplied context holding a nested object (`session` points at
a second object). -/
def c9Heap : Heap := [[("session", JSValue.ref 1)], [("user", JSValue.str "alice")]]

/-- Construction options sharing that context, no data sources. -/
def c9Options : ConstructOptions := { contextAddr := 0, dataSources := none, cacheId := 0 }

/-- The heap after two processors are constructed from the same options:
their contexts live at addresses 2 and 3, both still referencing the
shared nested object at address 1. -/
def c9FullHeap : Heap :=
  [[("session", JSValue.ref 1)], [("user", JSValue.str "alice")],
   [("session", JSValue.ref 1)], [("session", JSValue.ref 1)]]

/-- The heap after a request through processor 1 mutates the nested object
its context references (`ctx1.session.user = "mallory"`). -/
def c9MutatedHeap : Heap := setProp c9FullHeap 1 "user" (JSValue.str "mallory")

/-- The witness configuration for the amended C9 theorem. -/
def c9wHeap : Heap := [[("user", JSValue.str "alice")]]

theorem processRequest_resolve_error (o : RequestOptions) (r : GraphQLRequest)
    (e : ProcessError) (hres : resolveQueryText o r = Except.error e) :
    (processRequest o r).result = Except.error e ∧
      (processRequest o r).trace.all Event.isPreEvent = true := by
  rcases hpq : r.persistedQuery with _ | pq
  · rcases hq : r.query with _ | q0
    · simp [resolveQueryText, hpq, hq] at hres
      simp [processRequest, hpq, hq, ← hres]
    · by_cases h0 : q0 = ""
      · simp [resolveQueryText, hpq, hq, h0] at hres
        simp [processRequest, hpq, hq, h0, ← hres]
      · simp [resolveQueryText, hpq, hq, h0] at hres
  · rcases hps : o.persistedQueries with _ | pqOptions
    · simp [resolveQueryText, hpq, hps] at hres
      simp [processRequest, hpq, hps, ← hres]
    · rcases hc : pqOptions.cache with _ | cache
      · simp [resolveQueryText, hpq, hps, hc] at hres
        simp [processRequest, hpq, hps, hc, ← hres]
      · by_cases hv : pq.version = 1
        · rcases hq : r.query with _ | q0
          · rcases hl : (cache.get ("apq:" ++ pq.sha256Hash)).bind
                (fun s => if s = "" then none else some s) with _ | q1
            · simp [resolveQueryText, hpq, hps, hc, hv, hq, hl] at hres
              simp [processRequest, hpq, hps, hc, hv, hq, hl, ← hres, Event.isPreEvent]
            · simp [resolveQueryText, hpq, hps, hc, hv, hq, hl] at hres
          · by_cases hsha : pq.sha256Hash = o.sha256 q0
            · by_cases h0 : q0 = ""
              · simp [resolveQueryText, hpq, hps, hc, hv, hq, hsha, h0] at hres
                simp [processRequest, hpq, hps, hc, hv, hq, hsha, h0, ← hres, Event.isPreEvent]
              · simp [resolveQueryText, hpq, hps, hc, hv, hq, hsha, h0] at hres
            · simp [resolveQueryText, hpq, hps, hc, hv, hq, hsha] at hres
              simp [processRequest, hpq, hps, hc, hv, hq, hsha, ← hres]
        · simp [resolveQueryText, hpq, hps, hc, hv] at hres
          simp [processRequest, hpq, hps, hc, hv, ← hres]

theorem processRequest_resolve_ok (o : RequestOptions) (r : GraphQLRequest) (q : String)
    (hres : resolveQueryText o r = Except.ok q) :
    ∃ hit reg pre, pre.all Event.isPreEvent = true ∧
      processRequest o r = runMain o r q hit reg pre := by
  rcases hpq : r.persistedQuery with _ | pq
  · rcases hq : r.query with _ | q0
    · simp [resolveQueryText, hpq, hq] at hres
    · by_cases h0 : q0 = ""
      · simp [resolveQueryText, hpq, hq, h0] at hres
      · simp [resolveQueryText, hpq, hq, h0] at hres
        subst hres
        exact ⟨false, false, [], rfl, by simp [processRequest, hpq, hq, h0]⟩
  · rcases hps : o.persistedQueries with _ | pqOptions
    · simp [resolveQueryText, hpq, hps] at hres
    · rcases hc : pqOptions.cache with _ | cache
      · simp [resolveQueryText, hpq, hps, hc] at hres
      · by_cases hv : pq.version = 1
        · rcases hq : r.query with _ | q0
          · rcases hl : (cache.get ("apq:" ++ pq.sha256Hash)).bind
                (fun s => if s = "" then none else some s) with _ | q1
            · simp [resolveQueryText, hpq, hps, hc, hv, hq, hl] at hres
            · simp [resolveQueryText, hpq, hps, hc, hv, hq, hl] at hres
              refine ⟨true, false, [Event.cacheGet ("apq:" ++ pq.sha256Hash)
                (cache.get ("apq:" ++ pq.sha256Hash))], by simp [Event.isPreEvent], ?_⟩
              simp [processRequest, hpq, hps, hc, hv, hq, hl, hres]
          · by_cases hsha : pq.sha256Hash = o.sha256 q0
            · by_cases h0 : q0 = ""
              · simp [resolveQueryText, hpq, hps, hc, hv, hq, hsha, h0] at hres
              · simp [resolveQueryText, hpq, hps, hc, hv, hq, hsha, h0] at hres
                refine ⟨false, true, Event.cacheSetScheduled ("apq:" ++ pq.sha256Hash) q0 ::
                  (if cache.setFails then [Event.cacheSetFailedLogged] else []), ?_, ?_⟩
                · rcases cache.setFails with _ | _ <;> simp [Event.isPreEvent]
                · subst hres
                  simp [processRequest, hpq, hps, hc, hv, hq, hsha, h0]
            · simp [resolveQueryText, hpq, hps, hc, hv, hq, hsha] at hres
        · simp [resolveQueryText, hpq, hps, hc, hv] at hres

theorem not_mem_of_preOnly (pre : List Event) (hpre : pre.all Event.isPreEvent = true)
    (e : Event) (he : e.isPreEvent = false) : e ∉ pre := by
  intro hm
  have := List.all_eq_true.mp hpre e hm
  rw [he] at this
  cases this

/-- C4: a parser-rejected query yields a single SyntaxError response with no
data, and neither validation nor execution is attempted. -/
theorem C4_syntax_error_short_circuit (o : RequestOptions) (r : GraphQLRequest)
    (q msg : String) (hres : resolveQueryText o r = Except.ok q)
    (hparse : o.parser q = Except.error msg) :
    ∃ resp, (processRequest o r).result = Except.ok resp ∧
      resp.errors = some [fromGraphQLError msg ErrorClass.syntaxError] ∧
      resp.data = none ∧
      Event.validatorRan ∉ (processRequest o r).trace ∧
      Event.executorRan ∉ (processRequest o r).trace := by
  obtain ⟨hit, reg, pre, hpre, heq⟩ := processRequest_resolve_ok o r q hres
  have hv : Event.validatorRan ∉ pre := not_mem_of_preOnly pre hpre _ rfl
  have he : Event.executorRan ∉ pre := not_mem_of_preOnly pre hpre _ rfl
  rw [heq]
  have hrun : runMain o r q hit reg pre =
      { result := Except.ok
          { data := none,
            errors := some [fromGraphQLError msg ErrorClass.syntaxError],
            extensions := none },
        trace := pre ++ [Event.requestDidStart hit reg, Event.parsingDidStart q,
          Event.parserRan q, Event.parsingDidEnd, Event.willSendResponse, Event.requestDidEnd] } := by
    simp [runMain, hparse, parseBlock]
  rw [hrun]
  refine ⟨_, rfl, rfl, rfl, ?_, ?_⟩
  · simp [List.mem_append, hv]
  · simp [List.mem_append, he]

theorem runMain_result_ok (o : RequestOptions) (r : GraphQLRequest) (q : String)
    (hit reg : Bool) (pre : List Event) :
    ∃ resp, (runMain o r q hit reg pre).result = Except.ok resp := by
  unfold runMain
  cases hp : o.parser q with
  | error msg => exact ⟨_, rfl⟩
  | ok doc =>
      by_cases hE : (o.validator doc).isEmpty
      · simp only [hE, if_true]
        cases hx : o.executor doc r.operationName r.variableValues with
        | error msg => exact ⟨_, rfl⟩
        | ok r0 => exact ⟨_, rfl⟩
      · simp only [hE, if_false]
        exact ⟨_, rfl⟩

/-- C5: validation violations yield one ValidationError per violation, in
the validator's order, and the executor never runs. -/
theorem C5_validation_errors_short_circuit (o : RequestOptions) (r : GraphQLRequest)
    (q : String) (doc : Document) (es : List String)
    (hres : resolveQueryText o r = Except.ok q)
    (hparse : o.parser q = Except.ok doc)
    (hval : o.validator doc = es) (hne : es ≠ []) :
    ∃ resp, (processRequest o r).result = Except.ok resp ∧
      resp.errors = some (es.map (fun e => fromGraphQLError e ErrorClass.validationError)) ∧
      resp.data = none ∧
      Event.executorRan ∉ (processRequest o r).trace := by
  obtain ⟨hit, reg, pre, hpre, heq⟩ := processRequest_resolve_ok o r q hres
  have he : Event.executorRan ∉ pre := not_mem_of_preOnly pre hpre _ rfl
  have hE : es.isEmpty = false := by
    cases es with
    | nil => exact absurd rfl hne
    | cons a l => rfl
  rw [heq]
  have hrun : runMain o r q hit reg pre =
      { result := Except.ok
          { data := none,
            errors := some (es.map (fun e => fromGraphQLError e ErrorClass.validationError)),
            extensions := none },
        trace := pre ++ [Event.requestDidStart hit reg, Event.parsingDidStart q,
          Event.parserRan q, Event.parsingDidEnd, Event.validationDidStart,
          Event.validatorRan, Event.validationDidEnd, Event.willSendResponse,
          Event.requestDidEnd] } := by
    simp [runMain, hparse, hval, hE, parseBlock, validationBlock]
  rw [hrun]
  refine ⟨_, rfl, rfl, rfl, ?_⟩
  simp [List.mem_append, he]

/-- C1 (amended): once the query text resolves, every engine-level failure
(syntax, validation, execution) is converted into a Response — the result
is `ok` whatever the engine does; and the only exceptions that escape
`processRequest` are the ones thrown by the query-resolution phase
(persisted-query protocol violations and the missing-query guard). -/
theorem C1_engine_failures_converted (o : RequestOptions) (r : GraphQLRequest) :
    (∀ q, resolveQueryText o r = Except.ok q →
      ∃ resp, (processRequest o r).result = Except.ok resp) ∧
    (∀ e, (processRequest o r).result = Except.error e →
      resolveQueryText o r = Except.error e) := by
  constructor
  · intro q hres
    obtain ⟨hit, reg, pre, hpre, heq⟩ := processRequest_resolve_ok o r q hres
    rw [heq]
    exact runMain_result_ok o r q hit reg pre
  · intro e hres
    cases hz : resolveQueryText o r with
    | error e0 =>
        have h := processRequest_resolve_error o r e0 hz
        rw [h.1] at hres
        cases hres
        rfl
    | ok q =>
        obtain ⟨hit, reg, pre, hpre, heq⟩ := processRequest_resolve_ok o r q hz
        obtain ⟨resp, hok⟩ := runMain_result_ok o r q hit reg pre
        rw [heq, hok] at hres
        cases hres

/-- C1 (counterexample): a persisted-query request hitting a processor with
no persisted-query cache configured makes `processRequest` throw
`PersistedQueryNotSupportedError` — a core-level failure escaping as a raw
exception instead of being converted into a Response. -/
theorem C1_counterexample :
    (processRequest { demoOptions with persistedQueries := none }
        (demoRequest (some "stored") (some { version := 1, sha256Hash := "h-stored" }))).result =
      Except.error ProcessError.persistedQueryNotSupported := by
  decide

/-- C1 (witness): the amended theorem at a syntactically invalid request:
the text resolves, the parser throws, and the result is still a Response. -/
theorem C1_witness :
    ∃ resp, (processRequest demoOptions (demoRequest (some "bad") none)).result = Except.ok resp :=
  (C1_engine_failures_converted demoOptions (demoRequest (some "bad") none)).1 "bad" (by decide)

/-- C4 (witness): the theorem at the concrete request `bad`. -/
theorem C4_witness :
    ∃ resp, (processRequest demoOptions (demoRequest (some "bad") none)).result = Except.ok resp ∧
      resp.errors = some [fromGraphQLError "Syntax Error: bad" ErrorClass.syntaxError] ∧
      resp.data = none ∧
      Event.validatorRan ∉ (processRequest demoOptions (demoRequest (some "bad") none)).trace ∧
      Event.executorRan ∉ (processRequest demoOptions (demoRequest (some "bad") none)).trace :=
  C4_syntax_error_short_circuit demoOptions (demoRequest (some "bad") none) "bad"
    "Syntax Error: bad" (by decide) (by decide)

/-- C5 (witness): the theorem at the concrete request `invalid` with two
validation violations. -/
theorem C5_witness :
    ∃ resp, (processRequest demoOptions (demoRequest (some "invalid") none)).result = Except.ok resp ∧
      resp.errors = some (["unknown field a", "unknown field b"].map
        (fun e => fromGraphQLError e ErrorClass.validationError)) ∧
      resp.data = none ∧
      Event.executorRan ∉ (processRequest demoOptions (demoRequest (some "invalid") none)).trace :=
  C5_validation_errors_short_circuit demoOptions (demoRequest (some "invalid") none) "invalid" 1
    ["unknown field a", "unknown field b"] (by decide) (by decide) (by decide) (by decide)

theorem runMain_trace_cases (o : RequestOptions) (r : GraphQLRequest) (q : String)
    (hit reg : Bool) (pre : List Event) :
    (runMain o r q hit reg pre).trace =
      pre ++ [Event.requestDidStart hit reg] ++ parseBlock q ++
        [Event.willSendResponse, Event.requestDidEnd] ∨
    (runMain o r q hit reg pre).trace =
      pre ++ [Event.requestDidStart hit reg] ++ parseBlock q ++ validationBlock ++
        [Event.willSendResponse, Event.requestDidEnd] ∨
    ∃ opEvents, (opEvents = [] ∨ opEvents = [Event.willExecuteOperation]) ∧
      (runMain o r q hit reg pre).trace =
        pre ++ [Event.requestDidStart hit reg] ++ parseBlock q ++ validationBlock ++
          opEvents ++ executionBlock ++ [Event.willSendResponse, Event.requestDidEnd] := by
  unfold runMain
  cases hp : o.parser q with
  | error msg => left; simp
  | ok doc =>
      by_cases hE : (o.validator doc).isEmpty
      · right; right
        refine ⟨(match o.getOperation doc r.operationName with
          | some _ => if o.willExecuteOperationDefined then [Event.willExecuteOperation] else []
          | none => []), ?_, ?_⟩
        · cases ho : o.getOperation doc r.operationName with
          | none => left; rfl
          | some op =>
              cases hw : o.willExecuteOperationDefined with
              | true => right; simp
              | false => left; simp
        · cases hx : o.executor doc r.operationName r.variableValues with
          | error msg => simp [hE, hx]
          | ok r0 => simp [hE, hx]
      · right; left
        simp [hE]

theorem runMain_mem_of_pre (o : RequestOptions) (r : GraphQLRequest) (q : String)
    (hit reg : Bool) (pre : List Event) (e : Event) (he : e ∈ pre) :
    e ∈ (runMain o r q hit reg pre).trace := by
  rcases runMain_trace_cases o r q hit reg pre with h | h | ⟨opEvents, _, h⟩ <;>
    rw [h] <;> simp [he]

theorem runMain_mem_start_parse (o : RequestOptions) (r : GraphQLRequest) (q : String)
    (hit reg : Bool) (pre : List Event) :
    Event.requestDidStart hit reg ∈ (runMain o r q hit reg pre).trace ∧
    Event.parserRan q ∈ (runMain o r q hit reg pre).trace := by
  rcases runMain_trace_cases o r q hit reg pre with h | h | ⟨opEvents, _, h⟩ <;>
    rw [h] <;> simp [parseBlock]

/-- C2: a persisted-query request without query text: no configured cache
fails with PersistedQueryNotSupported regardless of the hash; a version
other than 1 fails with the unsupported-version InvalidRequest; otherwise
the key `apq:` + sha256Hash is looked up, a (non-empty) hit is used as the
query text with `persistedQueryHit = true`, and a miss fails with
PersistedQueryNotFound. -/
theorem C2_persisted_query_resolution (o : RequestOptions) (r : GraphQLRequest)
    (pq : PersistedQueryExtension)
    (hpq : r.persistedQuery = some pq) (hq : r.query = none) :
    (configuredPQCache o = none →
      (processRequest o r).result = Except.error ProcessError.persistedQueryNotSupported) ∧
    (∀ cache, configuredPQCache o = some cache → pq.version ≠ 1 →
      (processRequest o r).result =
        Except.error (ProcessError.invalidGraphQLRequest "Unsupported persisted query version")) ∧
    (∀ cache, configuredPQCache o = some cache → pq.version = 1 →
      Event.cacheGet ("apq:" ++ pq.sha256Hash) (cache.get ("apq:" ++ pq.sha256Hash)) ∈
          (processRequest o r).trace ∧
      (∀ s, cache.get ("apq:" ++ pq.sha256Hash) = some s → s ≠ "" →
        Event.parserRan s ∈ (processRequest o r).trace ∧
        Event.requestDidStart true false ∈ (processRequest o r).trace) ∧
      (cache.get ("apq:" ++ pq.sha256Hash) = none →
        (processRequest o r).result = Except.error ProcessError.persistedQueryNotFound)) := by
  refine ⟨?_, ?_, ?_⟩
  · intro hnone
    rcases hps : o.persistedQueries with _ | pqo
    · simp [processRequest, hpq, hps]
    · have hc : pqo.cache = none := by simpa [configuredPQCache, hps] using hnone
      simp [processRequest, hpq, hps, hc]
  · intro cache hsome hv
    rcases hps : o.persistedQueries with _ | pqo
    · simp [configuredPQCache, hps] at hsome
    · have hc : pqo.cache = some cache := by simpa [configuredPQCache, hps] using hsome
      simp [processRequest, hpq, hps, hc, hv, hq]
  · intro cache hsome hv
    rcases hps : o.persistedQueries with _ | pqo
    · simp [configuredPQCache, hps] at hsome
    · have hc : pqo.cache = some cache := by simpa [configuredPQCache, hps] using hsome
      refine ⟨?_, ?_, ?_⟩
      · rcases hraw : cache.get ("apq:" ++ pq.sha256Hash) with _ | s
        · simp [processRequest, hpq, hps, hc, hv, hq, hraw]
        · by_cases h0 : s = ""
          · simp [processRequest, hpq, hps, hc, hv, hq, hraw, h0]
          · have hmem := runMain_mem_of_pre o r s true false
              [Event.cacheGet ("apq:" ++ pq.sha256Hash) (some s)]
              (Event.cacheGet ("apq:" ++ pq.sha256Hash) (some s)) (by simp)
            simp [processRequest, hpq, hps, hc, hv, hq, hraw, h0]
            simpa [hraw] using hmem
      · intro s hraw h0
        have hmem := runMain_mem_start_parse o r s true false
          [Event.cacheGet ("apq:" ++ pq.sha256Hash) (some s)]
        constructor
        · simpa [processRequest, hpq, hps, hc, hv, hq, hraw, h0] using hmem.2
        · simpa [processRequest, hpq, hps, hc, hv, hq, hraw, h0] using hmem.1
      · intro hraw
        simp [processRequest, hpq, hps, hc, hv, hq, hraw]

/-- C2 (witness): the theorem at a concrete request whose hash hits the
demo cache, instantiating the lookup/hit branch, and at the same processor
with version 2, instantiating the version branch. -/
theorem C2_witness :
    Event.parserRan "stored" ∈
        (processRequest demoOptions (demoRequest none (some { version := 1, sha256Hash := "hit" }))).trace ∧
      Event.requestDidStart true false ∈
        (processRequest demoOptions (demoRequest none (some { version := 1, sha256Hash := "hit" }))).trace :=
  ((C2_persisted_query_resolution demoOptions
      (demoRequest none (some { version := 1, sha256Hash := "hit" }))
      { version := 1, sha256Hash := "hit" } (by decide) (by decide)).2.2 demoCache
      rfl (by decide)).2.1 "stored" (by decide) (by decide)

/-- C10: an empty-string cache hit is treated as a miss — the JS falsiness
of `""` in `(await cache.get(...)) || undefined` — so the request fails
with PersistedQueryNotFound and no request ever starts with
`persistedQueryHit = true`. -/
theorem C10_empty_cache_hit_is_miss (o : RequestOptions) (r : GraphQLRequest)
    (pq : PersistedQueryExtension) (cache : KVCache)
    (hpq : r.persistedQuery = some pq) (hq : r.query = none)
    (hcache : configuredPQCache o = some cache) (hv : pq.version = 1)
    (hraw : cache.get ("apq:" ++ pq.sha256Hash) = some "") :
    (processRequest o r).result = Except.error ProcessError.persistedQueryNotFound ∧
    ∀ reg, Event.requestDidStart true reg ∉ (processRequest o r).trace := by
  rcases hps : o.persistedQueries with _ | pqo
  · simp [configuredPQCache, hps] at hcache
  · have hc : pqo.cache = some cache := by simpa [configuredPQCache, hps] using hcache
    constructor
    · simp [processRequest, hpq, hps, hc, hv, hq, hraw]
    · intro reg
      simp [processRequest, hpq, hps, hc, hv, hq, hraw]

/-- C10 (witness): the theorem at the demo cache, whose `apq:empty` key
stores the empty string. -/
theorem C10_witness :
    (processRequest demoOptions (demoRequest none (some { version := 1, sha256Hash := "empty" }))).result =
        Except.error ProcessError.persistedQueryNotFound ∧
      ∀ reg, Event.requestDidStart true reg ∉
        (processRequest demoOptions (demoRequest none (some { version := 1, sha256Hash := "empty" }))).trace :=
  C10_empty_cache_hit_is_miss demoOptions
    (demoRequest none (some { version := 1, sha256Hash := "empty" }))
    { version := 1, sha256Hash := "empty" } demoCache (by decide) (by decide) rfl (by decide)
    (by decide)

theorem runMain_result_congr (o₁ o₂ : RequestOptions) (r : GraphQLRequest) (q : String)
    (hit reg : Bool) (pre₁ pre₂ : List Event)
    (hp : o₁.parser = o₂.parser) (hva : o₁.validator = o₂.validator)
    (hx : o₁.executor = o₂.executor) (hg : o₁.getOperation = o₂.getOperation)
    (hw : o₁.willExecuteOperationDefined = o₂.willExecuteOperationDefined)
    (hs : o₁.stackFormat = o₂.stackFormat) (hf : o₁.formatResponse = o₂.formatResponse) :
    (runMain o₁ r q hit reg pre₁).result = (runMain o₂ r q hit reg pre₂).result := by
  unfold runMain
  rw [hp, hva, hx, hg, hw, hs, hf]
  cases hpr : o₂.parser q with
  | error msg => rfl
  | ok doc =>
      by_cases hE : (o₂.validator doc).isEmpty
      · simp only [hE, if_true]
        cases hxr : o₂.executor doc r.operationName r.variableValues with
        | error msg => rfl
        | ok r0 => rfl
      · simp [hE]

/-- C3: a persisted-query request carrying query text: a sha mismatch fails
with the mismatch InvalidRequest and the cache is neither read nor
written; a match schedules the detached `apq:` write, whose failure is
logged and never changes the request's result, and surfaces
`persistedQueryRegister = true` at request start. -/
theorem C3_persisted_query_register (o : RequestOptions) (r : GraphQLRequest)
    (pq : PersistedQueryExtension) (q : String) (cache : KVCache)
    (hpq : r.persistedQuery = some pq) (hq : r.query = some q)
    (hcache : configuredPQCache o = some cache) (hv : pq.version = 1) :
    (pq.sha256Hash ≠ o.sha256 q →
      (processRequest o r).result =
        Except.error (ProcessError.invalidGraphQLRequest "provided sha does not match query") ∧
      (∀ k v, Event.cacheGet k v ∉ (processRequest o r).trace) ∧
      (∀ k v, Event.cacheSetScheduled k v ∉ (processRequest o r).trace)) ∧
    (pq.sha256Hash = o.sha256 q →
      Event.cacheSetScheduled ("apq:" ++ pq.sha256Hash) q ∈ (processRequest o r).trace ∧
      (∀ b₁ b₂, (processRequest (o.withSetFails b₁) r).result =
        (processRequest (o.withSetFails b₂) r).result) ∧
      (cache.setFails = true → Event.cacheSetFailedLogged ∈ (processRequest o r).trace) ∧
      (q ≠ "" → Event.requestDidStart false true ∈ (processRequest o r).trace)) := by
  rcases hps : o.persistedQueries with _ | pqo
  · simp [configuredPQCache, hps] at hcache
  · have hc : pqo.cache = some cache := by simpa [configuredPQCache, hps] using hcache
    constructor
    · intro hsha
      refine ⟨?_, ?_, ?_⟩ <;> simp [processRequest, hpq, hps, hc, hv, hq, hsha]
    · intro hsha
      refine ⟨?_, ?_, ?_, ?_⟩
      · by_cases h0 : q = ""
        · simp [processRequest, hpq, hps, hc, hv, hq, hsha, h0]
        · have hmem := runMain_mem_of_pre o r q false true
            (Event.cacheSetScheduled ("apq:" ++ pq.sha256Hash) q ::
              (if cache.setFails then [Event.cacheSetFailedLogged] else []))
            (Event.cacheSetScheduled ("apq:" ++ pq.sha256Hash) q) (by simp)
          simpa [processRequest, hpq, hps, hc, hv, hq, hsha, h0] using hmem
      · intro b₁ b₂
        by_cases h0 : q = ""
        · simp [processRequest, RequestOptions.withSetFails, hpq, hps, hc, hv, hq, hsha, h0]
        · have hcong := runMain_result_congr (o.withSetFails b₁) (o.withSetFails b₂) r q false true
            (Event.cacheSetScheduled ("apq:" ++ pq.sha256Hash) q ::
              (if b₁ then [Event.cacheSetFailedLogged] else []))
            (Event.cacheSetScheduled ("apq:" ++ pq.sha256Hash) q ::
              (if b₂ then [Event.cacheSetFailedLogged] else []))
            rfl rfl rfl rfl rfl rfl rfl
          simpa [processRequest, RequestOptions.withSetFails, hpq, hps, hc, hv, hq, hsha, h0]
            using hcong
      · intro hfail
        by_cases h0 : q = ""
        · simp [processRequest, hpq, hps, hc, hv, hq, hsha, h0, hfail]
        · have hmem := runMain_mem_of_pre o r q false true
            (Event.cacheSetScheduled ("apq:" ++ pq.sha256Hash) q ::
              (if cache.setFails then [Event.cacheSetFailedLogged] else []))
            Event.cacheSetFailedLogged (by simp [hfail])
          simpa [processRequest, hpq, hps, hc, hv, hq, hsha, h0] using hmem
      · intro h0
        have hmem := (runMain_mem_start_parse o r q false true
          (Event.cacheSetScheduled ("apq:" ++ pq.sha256Hash) q ::
            (if cache.setFails then [Event.cacheSetFailedLogged] else []))).1
        simpa [processRequest, hpq, hps, hc, hv, hq, hsha, h0] using hmem

/-- C3 (witness): the theorem at the concrete matching registration
request `{query: "stored", sha256Hash: "h-stored"}`. -/
theorem C3_witness :
    Event.cacheSetScheduled "apq:h-stored" "stored" ∈
        (processRequest demoOptions
          (demoRequest (some "stored") (some { version := 1, sha256Hash := "h-stored" }))).trace ∧
      Event.requestDidStart false true ∈
        (processRequest demoOptions
          (demoRequest (some "stored") (some { version := 1, sha256Hash := "h-stored" }))).trace := by
  have h := (C3_persisted_query_register demoOptions
    (demoRequest (some "stored") (some { version := 1, sha256Hash := "h-stored" }))
    { version := 1, sha256Hash := "h-stored" } "stored" demoCache
    (by decide) (by decide) rfl (by decide)).2 (by decide)
  exact ⟨h.1, h.2.2.2 (by decide)⟩

theorem getLast?_append_pair (xs : List Event) (a b : Event) :
    (xs ++ [a, b]).getLast? = some b := by
  rw [show xs ++ [a, b] = (xs ++ [a]) ++ [b] by simp]
  exact List.getLast?_concat _

/-- C6: each stage's hooks bracket the stage's engine call — the start hook
immediately precedes it and the end finalizer immediately follows it, also
when the engine call throws — and whenever `requestDidStart` fired, the
paired `requestDidEnd` finalizer is the last event of every exit path. -/
theorem C6_instrumentation_bracketing (o : RequestOptions) (r : GraphQLRequest) :
    (∀ q, Event.parserRan q ∈ (processRequest o r).trace →
      List.IsInfix (parseBlock q) (processRequest o r).trace) ∧
    (Event.validatorRan ∈ (processRequest o r).trace →
      List.IsInfix validationBlock (processRequest o r).trace) ∧
    (Event.executorRan ∈ (processRequest o r).trace →
      List.IsInfix executionBlock (processRequest o r).trace) ∧
    (∀ hit reg, Event.requestDidStart hit reg ∈ (processRequest o r).trace →
      (processRequest o r).trace.getLast? = some Event.requestDidEnd) := by
  cases hz : resolveQueryText o r with
  | error e =>
      have h := processRequest_resolve_error o r e hz
      refine ⟨?_, ?_, ?_, ?_⟩
      · intro q hmem
        have := List.all_eq_true.mp h.2 _ hmem
        simp [Event.isPreEvent] at this
      · intro hmem
        have := List.all_eq_true.mp h.2 _ hmem
        simp [Event.isPreEvent] at this
      · intro hmem
        have := List.all_eq_true.mp h.2 _ hmem
        simp [Event.isPreEvent] at this
      · intro hit reg hmem
        have := List.all_eq_true.mp h.2 _ hmem
        simp [Event.isPreEvent] at this
  | ok q =>
      obtain ⟨hit, reg, pre, hpre, heq⟩ := processRequest_resolve_ok o r q hz
      rw [heq]
      rcases runMain_trace_cases o r q hit reg pre with h | h | ⟨opEvents, hop, h⟩
      · rw [h]
        refine ⟨?_, ?_, ?_, ?_⟩
        · intro q' hq'
          simp [parseBlock, List.mem_append] at hq'
          rcases hq' with hq' | hq'
          · exact absurd hq' (not_mem_of_preOnly pre hpre _ rfl)
          · subst hq'
            exact ⟨pre ++ [Event.requestDidStart hit reg],
              [Event.willSendResponse, Event.requestDidEnd], by simp⟩
        · intro hmem
          simp [parseBlock, List.mem_append] at hmem
          exact absurd hmem (not_mem_of_preOnly pre hpre _ rfl)
        · intro hmem
          simp [parseBlock, List.mem_append] at hmem
          exact absurd hmem (not_mem_of_preOnly pre hpre _ rfl)
        · intro hit' reg' hmem
          rw [show pre ++ [Event.requestDidStart hit reg] ++ parseBlock q ++
              [Event.willSendResponse, Event.requestDidEnd] =
              (pre ++ [Event.requestDidStart hit reg] ++ parseBlock q) ++
              [Event.willSendResponse, Event.requestDidEnd] by simp]
          exact getLast?_append_pair _ _ _
      · rw [h]
        refine ⟨?_, ?_, ?_, ?_⟩
        · intro q' hq'
          simp [parseBlock, validationBlock, List.mem_append] at hq'
          rcases hq' with hq' | hq'
          · exact absurd hq' (not_mem_of_preOnly pre hpre _ rfl)
          · subst hq'
            exact ⟨pre ++ [Event.requestDidStart hit reg],
              validationBlock ++ [Event.willSendResponse, Event.requestDidEnd], by simp⟩
        · intro hmem
          exact ⟨pre ++ [Event.requestDidStart hit reg] ++ parseBlock q,
            [Event.willSendResponse, Event.requestDidEnd], by simp⟩
        · intro hmem
          simp [parseBlock, validationBlock, List.mem_append] at hmem
          exact absurd hmem (not_mem_of_preOnly pre hpre _ rfl)
        · intro hit' reg' hmem
          rw [show pre ++ [Event.requestDidStart hit reg] ++ parseBlock q ++ validationBlock ++
              [Event.willSendResponse, Event.requestDidEnd] =
              (pre ++ [Event.requestDidStart hit reg] ++ parseBlock q ++ validationBlock) ++
              [Event.willSendResponse, Event.requestDidEnd] by simp]
          exact getLast?_append_pair _ _ _
      · rw [h]
        refine ⟨?_, ?_, ?_, ?_⟩
        · intro q' hq'
          simp [parseBlock, validationBlock, executionBlock, List.mem_append] at hq'
          rcases hq' with hq' | hq'
          · exact absurd hq' (not_mem_of_preOnly pre hpre _ rfl)
          · rcases hq' with hq' | hq'
            · subst hq'
              exact ⟨pre ++ [Event.requestDidStart hit reg],
                validationBlock ++ opEvents ++ executionBlock ++
                  [Event.willSendResponse, Event.requestDidEnd], by simp⟩
            · rcases hop with hop | hop <;> rw [hop] at hq' <;> simp at hq'
        · intro hmem
          exact ⟨pre ++ [Event.requestDidStart hit reg] ++ parseBlock q,
            opEvents ++ executionBlock ++ [Event.willSendResponse, Event.requestDidEnd], by simp⟩
        · intro hmem
          exact ⟨pre ++ [Event.requestDidStart hit reg] ++ parseBlock q ++ validationBlock ++
            opEvents, [Event.willSendResponse, Event.requestDidEnd], by simp⟩
        · intro hit' reg' hmem
          rw [show pre ++ [Event.requestDidStart hit reg] ++ parseBlock q ++ validationBlock ++
              opEvents ++ executionBlock ++ [Event.willSendResponse, Event.requestDidEnd] =
              (pre ++ [Event.requestDidStart hit reg] ++ parseBlock q ++ validationBlock ++
                opEvents ++ executionBlock) ++
              [Event.willSendResponse, Event.requestDidEnd] by simp]
          exact getLast?_append_pair _ _ _

/-- C6 (witness): the theorem at the concrete request `bad`, whose parser
throws: the parse stage is still bracketed and `requestDidEnd` closes the
trace. -/
theorem C6_witness :
    List.IsInfix (parseBlock "bad")
        (processRequest demoOptions (demoRequest (some "bad") none)).trace ∧
      (processRequest demoOptions (demoRequest (some "bad") none)).trace.getLast? =
        some Event.requestDidEnd := by
  have h := C6_instrumentation_bracketing demoOptions (demoRequest (some "bad") none)
  exact ⟨h.1 "bad" (by decide), h.2.2.2 false false (by decide)⟩

theorem getObj_concat (h : Heap) (o : JSObject) : getObj (h ++ [o]) h.length = o := by
  induction h with
  | nil => rfl
  | cons x xs ih =>
      rw [show (x :: xs).length = xs.length + 1 from rfl]
      rw [show x :: xs ++ [o] = x :: (xs ++ [o]) from rfl]
      rw [show getObj (x :: (xs ++ [o])) (xs.length + 1) = getObj (xs ++ [o]) xs.length from rfl]
      exact ih

/-- C7: evaluating construction with one configured data source.  The
factory runs once and `initialize` is invoked once, but the `context`
property of its single config-object argument is `undefined` (`none`) —
the field `this.context` has not been assigned yet — not the per-request
context (address 1); and a two-parameter `initialize(context, cache)`
such as `RESTDataSource`'s therefore builds its `HTTPCache` over
`undefined` instead of the configured cache. -/
theorem C7_initialize_gets_undefined_context :
    construct c7Heap c7Options = Except.ok
      { heap := [[("userId", JSValue.prim 7)],
                 [("userId", JSValue.prim 7), ("dataSources", JSValue.ref 2)],
                 [("moviesAPI", JSValue.prim 0)]],
        contextAddr := 1,
        factoryCalls := 1,
        initializeCalls := [{ dataSourceName := "moviesAPI", argContext := none, argCache := 5 }] } ∧
    (initializeCallAsReceived
        { dataSourceName := "moviesAPI", argContext := none, argCache := 5 }).httpCacheBacking =
      none := by
  decide

/-- C8: if a data-source factory is configured and the caller's own context
object already has a `dataSources` key, the processor constructor throws,
before any request is processed. -/
theorem C8_reserved_key_collision_throws (h : Heap) (opts : ConstructOptions)
    (dss : List DataSourceSpec) (hds : opts.dataSources = some dss)
    (hkey : containsKey h opts.contextAddr "dataSources" = true) :
    construct h opts =
      Except.error "Please use the dataSources config option instead of putting dataSources on the context yourself." := by
  have hck : containsKey (cloneObject h opts.contextAddr).1
      (cloneObject h opts.contextAddr).2 "dataSources" = true := by
    unfold containsKey cloneObject alloc
    unfold containsKey at hkey
    simpa [getObj_concat] using hkey
  unfold construct initializeContext
  simp only [hds, hck, if_true]

/-- C8 (witness): the theorem at a context that already carries a
`dataSources` key. -/
theorem C8_witness :
    construct [[("dataSources", JSValue.prim 0)]]
        { contextAddr := 0, dataSources := some [{ name := "x", hasInitialize := true }], cacheId := 3 } =
      Except.error "Please use the dataSources config option instead of putting dataSources on the context yourself." :=
  C8_reserved_key_collision_throws [[("dataSources", JSValue.prim 0)]]
    { contextAddr := 0, dataSources := some [{ name := "x", hasInitialize := true }], cacheId := 3 }
    [{ name := "x", hasInitialize := true }] (by decide) (by decide)

theorem getProp_setProp_ne (H : Heap) (i j : Nat) (hij : i ≠ j) (k k' : String) (v : JSValue) :
    getProp (setProp H i k v) j k' = getProp H j k' := by
  unfold getProp setProp getObj
  rw [show ∀ (l : Heap) (o : JSObject), (l.set i o).get? j = l.get? j from
    fun l o => by rw [List.get?_eq_getElem?, List.get?_eq_getElem?, List.getElem?_set_ne hij]]

/-- C9 (counterexample): `cloneObject` is a shallow clone, so the claim
fails for nested state: two processors constructed from the same options
get distinct contexts (addresses 2 and 3) that share the nested object at
address 1; mutating that object through processor 1's context
(`ctx1.session.user = "mallory"`) is observed through processor 2's
context, whose `session.user` read changes from `alice` to `mallory`. -/
theorem C9_counterexample :
    construct c9Heap c9Options = Except.ok
      { heap := [[("session", JSValue.ref 1)], [("user", JSValue.str "alice")],
                 [("session", JSValue.ref 1)]],
        contextAddr := 2, factoryCalls := 0, initializeCalls := [] } ∧
    construct [[("session", JSValue.ref 1)], [("user", JSValue.str "alice")],
        [("session", JSValue.ref 1)]] c9Options = Except.ok
      { heap := c9FullHeap, contextAddr := 3, factoryCalls := 0, initializeCalls := [] } ∧
    getProp c9FullHeap 2 "session" = some (JSValue.ref 1) ∧
    readThrough c9FullHeap 3 "session" "user" = some (JSValue.str "alice") ∧
    readThrough c9MutatedHeap 2 "session" "user" = some (JSValue.str "mallory") ∧
    readThrough c9MutatedHeap 3 "session" "user" = some (JSValue.str "mallory") := by
  decide

/-- C9 (amended): what the shallow clone does guarantee — two processors
independently constructed from the same configuration have distinct
context objects, and assigning a top-level property on one processor's
context is never observable through the other's own properties (in either
direction). -/
theorem C9_top_level_context_isolation (h : Heap) (opts : ConstructOptions)
    (r1 r2 : ConstructResult) (hds : opts.dataSources = none)
    (h1 : construct h opts = Except.ok r1)
    (h2 : construct r1.heap opts = Except.ok r2) :
    r1.contextAddr ≠ r2.contextAddr ∧
    (∀ k v k', getProp (setProp r2.heap r1.contextAddr k v) r2.contextAddr k' =
      getProp r2.heap r2.contextAddr k') ∧
    (∀ k v k', getProp (setProp r2.heap r2.contextAddr k v) r1.contextAddr k' =
      getProp r2.heap r1.contextAddr k') := by
  unfold construct initializeContext at h1 h2
  rw [hds] at h1 h2
  simp only [cloneObject, alloc] at h1 h2
  cases h1
  cases h2
  refine ⟨?_, ?_, ?_⟩
  · simp
  · intro k v k'
    exact getProp_setProp_ne _ _ _ (by simp) k k' v
  · intro k v k'
    exact getProp_setProp_ne _ _ _ (by simp) k k' v

/-- C9 (witness): the amended theorem at a one-object context: after two
constructions (contexts at addresses 1 and 2), a top-level write through
context 1 leaves every read through context 2 unchanged. -/
theorem C9_witness :
    (1 : Nat) ≠ 2 ∧
    getProp (setProp [[("user", JSValue.str "alice")], [("user", JSValue.str "alice")],
        [("user", JSValue.str "alice")]] 1 "user" (JSValue.str "bob")) 2 "user" =
      getProp [[("user", JSValue.str "alice")], [("user", JSValue.str "alice")],
        [("user", JSValue.str "alice")]] 2 "user" := by
  have h := C9_top_level_context_isolation c9wHeap
    { contextAddr := 0, dataSources := none, cacheId := 0 }
    { heap := [[("user", JSValue.str "alice")], [("user", JSValue.str "alice")]],
      contextAddr := 1, factoryCalls := 0, initializeCalls := [] }
    { heap := [[("user", JSValue.str "alice")], [("user", JSValue.str "alice")],
        [("user", JSValue.str "alice")]],
      contextAddr := 2, factoryCalls := 0, initializeCalls := [] }
    rfl (by decide) (by decide)
  exact ⟨h.1, h.2.1 "user" (JSValue.str "bob") "user"⟩

end ApolloServer
